import Mathlib

/-!
Verification of the repo-map indexing server (`servers/repo-map-server.py`)
and its extraction script (`scripts/generate-repo-map.py`).

The Python code is shallowly embedded: each relevant Python function becomes a
Lean definition over explicit state structures.  SQLite tables become lists of
rows, the filesystem becomes association lists, wall-clock time becomes integer
seconds, and exceptions become `Except` / sum-type results.  Components of the
repository that the server calls but whose source is not present (the
cache-consulting extraction child, `find_files`, `CACHE_VERSION`) are modelled
from the specification and marked as such in their doc comments.
-/

namespace RepoMap

/-- A row of the `symbols` SQLite table, as read by the server
(`servers/repo-map-server.py`): columns `name`, `kind`, `signature`,
`docstring`, `file_path`, `line_number`, `end_line_number`, `parent`. -/
structure SymbolRow where
  name : String
  kind : String
  signature : String
  docstring : Option String
  file_path : String
  line_number : Nat
  end_line_number : Option Nat
  parent : Option String
deriving DecidableEq, Repr

/-- ASCII lower-casing of a single character, as SQLite applies to both
operands of `LIKE` (SQLite `LIKE` is case-insensitive for ASCII by default). -/
def lowerAscii (c : Char) : Char :=
  if 'A' ≤ c ∧ c ≤ 'Z' then Char.ofNat (c.toNat + 32) else c

/-- Fuel-driven matcher for SQLite `LIKE`: `%` matches any sequence, `_`
matches exactly one character, anything else matches itself up to ASCII case.
The fuel only drives structural recursion; `likeMatch` below always supplies
enough of it. -/
def likeAux : Nat → List Char → List Char → Bool
  | 0, _, _ => false
  | _ + 1, [], [] => true
  | fuel + 1, '%' :: ps, [] => likeAux fuel ps []
  | fuel + 1, '%' :: ps, t :: ts =>
      likeAux fuel ps (t :: ts) || likeAux fuel ('%' :: ps) ts
  | fuel + 1, '_' :: ps, _ :: ts => likeAux fuel ps ts
  | fuel + 1, p :: ps, t :: ts =>
      lowerAscii p == lowerAscii t && likeAux fuel ps ts
  | _ + 1, _ :: _, [] => false
  | _ + 1, [], _ :: _ => false

/-- SQLite `name LIKE pattern` (default case-insensitive ASCII collation). -/
def likeMatch (pattern text : String) : Bool :=
  likeAux (pattern.length + text.length + 1) pattern.data text.data

/-- Fuel-driven matcher for Python `fnmatch.fnmatch` glob semantics restricted
to `*` (any sequence) and `?` (any single character); on POSIX `fnmatch` is
case-sensitive.  Patterns without `[...]` character classes — the only kind the
patterns documented for the server — are matched exactly as CPython does. -/
def globAux : Nat → List Char → List Char → Bool
  | 0, _, _ => false
  | _ + 1, [], [] => true
  | fuel + 1, '*' :: ps, [] => globAux fuel ps []
  | fuel + 1, '*' :: ps, t :: ts =>
      globAux fuel ps (t :: ts) || globAux fuel ('*' :: ps) ts
  | fuel + 1, '?' :: ps, _ :: ts => globAux fuel ps ts
  | fuel + 1, p :: ps, t :: ts => p == t && globAux fuel ps ts
  | _ + 1, _ :: _, [] => false
  | _ + 1, [], _ :: _ => false

/-- Python `fnmatch.fnmatch(text, pattern)` for bracket-free patterns. -/
def globMatch (pattern text : String) : Bool :=
  globAux (pattern.length + text.length + 1) pattern.data text.data

/-- `pattern.replace("*", "%").replace("?", "_")` from `search_symbols`:
since every replacement is one character for one character and the outputs
`%`, `_` are not themselves rewritten, the two passes equal one map. -/
def globToLike (pattern : String) : String :=
  String.mk (pattern.data.map fun c =>
    if c = '*' then '%' else if c = '?' then '_' else c)

/-- Lexicographic order on character lists: the default BINARY
collation of SQLite compares UTF-8 bytes, and UTF-8 byte order coincides with code
point order. -/
def charListLe : List Char → List Char → Bool
  | [], _ => true
  | _ :: _, [] => false
  | a :: as, b :: bs =>
      if a < b then true else if b < a then false else charListLe as bs

/-- Insert a row into a name-sorted list, keeping it sorted (helper for
the SQL `ORDER BY name`). -/
def insertByName (r : SymbolRow) : List SymbolRow → List SymbolRow
  | [] => [r]
  | x :: xs =>
      if charListLe r.name.data x.name.data then r :: x :: xs
      else x :: insertByName r xs

/-- SQL `ORDER BY name` over the selected rows (insertion sort; SQLite
leaves the relative order of equal keys unspecified, and no claim depends
on it). -/
def orderByName : List SymbolRow → List SymbolRow
  | [] => []
  | x :: xs => insertByName x (orderByName xs)

/-- The rows produced by the SQL query in `search_symbols`
(`repo-map-server.py` lines 705-719): `SELECT * FROM symbols WHERE name LIKE
sql_pattern [AND kind = ?] ORDER BY name LIMIT limit`. -/
def sqlQueryRows (store : List SymbolRow) (pattern : String)
    (kind : Option String) (lim : Nat) : List SymbolRow :=
  let sqlPattern := globToLike pattern
  let selected := store.filter fun r =>
    likeMatch sqlPattern r.name &&
      (match kind with
       | some k => r.kind == k
       | none => true)
  (orderByName selected).take lim

/-- `search_symbols` from `repo-map-server.py` (lines 701-758), up to markdown
rendering: the SQL `LIKE` pre-filter, the `fnmatch` post-filter, the fall-back
to the raw SQL rows when the post-filter removed everything, and the final
`results[:limit]` truncation.  Returns the list of result rows. -/
def search_symbols (store : List SymbolRow) (pattern : String)
    (kind : Option String) (lim : Nat) : List SymbolRow :=
  let rows := sqlQueryRows store pattern kind lim
  let results := rows.filter fun r => globMatch pattern r.name
  let results := if results.isEmpty then rows else results
  results.take lim

/-! ### get_symbol_content (`repo-map-server.py` lines 803-879) -/

/-- The structured outcome of `get_symbol_content`.  The Python function
renders each branch as markdown; the embedding keeps the branch and every
datum the rendering uses (for the ambiguity branch, the full match list with
file path and line number of each match). -/
inductive ContentResult where
  | notFound (name : String)
  | ambiguous (name : String) (found : List SymbolRow)
  | fileNotFound (path : String)
  | readError (path : String)
  | content (row : SymbolRow) (startLine endLine : Nat) (text : String)
deriving DecidableEq, Repr

/-- `name.rsplit(".", 1)` for a name containing a dot: everything before the
last dot, and everything after it (computed on the character list: the
suffix after the last `.` is the longest dot-free suffix). -/
def rsplitDot (s : String) : String × String :=
  let rev := s.data.reverse
  let afterRev := rev.takeWhile (fun c => c ≠ '.')
  let beforeRev := (rev.dropWhile (fun c => c ≠ '.')).drop 1
  (String.mk beforeRev.reverse, String.mk afterRev.reverse)

/-- The rows returned by the SQL query in `get_symbol_content` (lines
808-822): for a dotted name, `WHERE name = method AND parent = parent`;
otherwise `WHERE name = ?`; plus `AND kind = ?` when a kind is given.
Row order is the insertion order of the store, as SQLite returns it without an
`ORDER BY`. -/
def contentQueryRows (store : List SymbolRow) (name : String)
    (kind : Option String) : List SymbolRow :=
  let base :=
    if name.data.contains '.' then
      let pm := rsplitDot name
      store.filter fun r => r.name == pm.2 && r.parent == some pm.1
    else
      store.filter fun r => r.name == name
  match kind with
  | some k => base.filter fun r => r.kind == k
  | none => base

/-- The filesystem seen by `get_symbol_content`: relative path ↦ entry.
An absent key models a missing file; `some none` models a file whose
`read_text` raises `IOError`/`UnicodeDecodeError`; `some (some lines)` is a
readable file split into lines. -/
def FileSystem := List (String × Option (List String))

/-- Look a path up in the modelled filesystem. -/
def FileSystem.find (fs : FileSystem) (path : String) :
    Option (Option (List String)) :=
  match fs.find? (fun e => e.1 == path) with
  | some e => some e.2
  | none => none

/-- The unique-match tail of `get_symbol_content` (lines 837-877): the
`row = rows[0]` selected, its file looked up live, read, and sliced
`lines[start_line - 1 : end_line]`, with the fixed `start_line + 20` window
when `end_line_number` is NULL. -/
def read_row_content (fs : FileSystem) (row : SymbolRow) : ContentResult :=
  match fs.find row.file_path with
  | none => .fileNotFound row.file_path
  | some none => .readError row.file_path
  | some (some lines) =>
    let startLine := row.line_number
    let endLine :=
      match row.end_line_number with
      | some e => e
      | none => min (startLine + 20) lines.length
    let contentLines := (lines.drop (startLine - 1)).take
      (endLine - (startLine - 1))
    .content row startLine endLine (String.intercalate "\x0a" contentLines)

/-- `get_symbol_content` from `repo-map-server.py` (lines 803-879): resolve
the name (optionally `Parent.member`), report not-found on zero matches,
report ambiguity listing all matches when several match and no kind was
given, otherwise read the source of the first matching row. -/
def get_symbol_content (store : List SymbolRow) (fs : FileSystem)
    (name : String) (kind : Option String) : ContentResult :=
  let rows := contentQueryRows store name kind
  match rows with
  | [] => .notFound name
  | row :: rest =>
    if rest.length + 1 > 1 ∧ kind = none then
      .ambiguous name (row :: rest)
    else
      read_row_content fs row

/-! ### Watchdog (`repo-map-server.py` lines 207-258) -/

/-- The Index Metadata key-value rows the watchdog reads and writes.
`status` is `metadata.get("status")`; `indexStartTime` is the
`datetime.fromisoformat` parse of `metadata.get("index_start_time")` in whole
seconds, with `none` standing for an absent key or a `ValueError` from an
invalid timestamp (both leave the metadata untouched in the source). -/
structure IndexMetadata where
  status : Option String
  indexStartTime : Option Int
  errorMessage : Option String
deriving DecidableEq, Repr

/-- The state `check_indexing_watchdog` touches: the database (absent or
holding metadata) and the in-memory subprocess handle.  `handleAlive = some
true` models `_indexing_process` pointing at a process whose `poll()` is
`None`; `some false` an exited process still referenced; `none` no handle. -/
structure WatchdogState where
  dbExists : Bool
  metadata : IndexMetadata
  handleAlive : Option Bool
deriving DecidableEq, Repr

/-- `check_indexing_watchdog` from `repo-map-server.py` (lines 207-258), with
wall-clock time passed in as integer seconds: when the database exists,
status is `"indexing"`, the start timestamp parses, and the elapsed time
exceeds 600 s, it writes `status = "failed"` and the diagnostic
`error_message` into the metadata, then kills and clears the handle if (and
only if) one points at a live process. -/
def check_indexing_watchdog (now : Int) (s : WatchdogState) : WatchdogState :=
  if ¬ s.dbExists then s
  else if s.metadata.status = some "indexing" then
    match s.metadata.indexStartTime with
    | some startTime =>
      let elapsed := now - startTime
      if elapsed > 600 then
        { s with
          metadata :=
            { s.metadata with
              status := some "failed"
              errorMessage := some
                ("Watchdog killed hung indexer after " ++ toString elapsed ++ "s") }
          handleAlive := if s.handleAlive = some true then none else s.handleAlive }
      else s
    | none => s
  else s

/-! ### Staleness detector (`repo-map-server.py` lines 261-305) -/

/-- The parse of the cache snapshot JSON, as `is_stale` uses it:
`version` is `cache_data.get("version")` and `filesCount` is
`len(cache_data.get("files", {}))`. -/
structure CacheData where
  version : Option Int
  filesCount : Nat
deriving DecidableEq, Repr

/-- A discoverable source file with its observed mtime (seconds). -/
structure FileStat where
  path : String
  mtime : Int
deriving DecidableEq, Repr

/-- The external state `is_stale` reads.  `cacheParse = none` models a
`json.JSONDecodeError`/`IOError` while reading an existing cache file.
`currentFiles` is the concatenation of `find_files(project_root, {ext})`
over the supported extensions — `find_files` itself is repository code
missing from the sources at hand, modelled from the spec as the list of
currently discoverable files under the supported extensions. -/
structure StaleWorld where
  dbExists : Bool
  dbMtime : Int
  cacheExists : Bool
  cacheParse : Option CacheData
  currentFiles : List FileStat
deriving DecidableEq, Repr

/-- `is_stale` from `repo-map-server.py` (lines 261-305): a pure function of
the observed world returning `(stale?, reason)`, checking in order — store
absent, cache absent, cache unreadable, cache schema version mismatch
(against `indexer.CACHE_VERSION`, modelled from the spec as the integer
parameter `cacheVersion`), file-count change, and an mtime sample of the
first 100 discoverable files against the own mtime of the store file. -/
def is_stale (cacheVersion : Int) (w : StaleWorld) : Bool × String :=
  if ¬ w.dbExists then (true, "database does not exist")
  else if ¬ w.cacheExists then (true, "cache file missing")
  else
    match w.cacheParse with
    | none => (true, "cache file corrupt")
    | some cd =>
      if cd.version ≠ some cacheVersion then (true, "cache version mismatch")
      else
        let currentCount := w.currentFiles.length
        if currentCount ≠ cd.filesCount then
          (true, "file count changed (" ++ toString cd.filesCount ++
            " cached, " ++ toString currentCount ++ " found)")
        else if (w.currentFiles.take 100).any (fun f => f.mtime > w.dbMtime) then
          (true, "files modified since last index")
        else (false, "up to date")

/-! ### Extraction supervisor (`repo-map-server.py` lines 308-349) -/

/-- An OS child process as the supervisor sees it: its pid and whether
`poll()` still returns `None` (alive). -/
structure Proc where
  pid : Nat
  alive : Bool
deriving DecidableEq, Repr

/-- The module-level supervisor state `do_index` touches:
`_indexing_process`, `_index_error`, plus a history of every pid ever
spawned (so that "no second child was spawned" is expressible). -/
structure SupervisorState where
  indexingProcess : Option Proc
  spawned : List Nat
  indexError : Option String
deriving DecidableEq, Repr

/-- `do_index` from `repo-map-server.py` (lines 308-349).  `spawnResult`
models the outcome of `subprocess.Popen`: a fresh process, or the text of
the exception it raised.  Under the lock: a live tracked child causes an
immediate rejection with no state change; otherwise the error slot is
cleared and the child is spawned (or the failure recorded). -/
def do_index (s : SupervisorState) (spawnResult : Except String Proc) :
    SupervisorState × Bool × String :=
  if (match s.indexingProcess with | some p => p.alive | none => false) then
    (s, false, "indexing already in progress")
  else
    let s1 : SupervisorState := { s with indexError := none }
    match spawnResult with
    | .ok proc =>
      ({ s1 with indexingProcess := some proc, spawned := s1.spawned ++ [proc.pid] },
       true, "indexing started in subprocess (PID: " ++ toString proc.pid ++ ")")
    | .error e =>
      ({ s1 with indexError := some e }, false, "failed to start indexing: " ++ e)

/-! ### Read-side concurrency guard (`repo-map-server.py` lines 554-621) -/

/-- The slice of the `repo_map_status()` dictionary that
`wait_for_indexing` inspects on each poll: `index_status` and `error`. -/
structure StatusView where
  index_status : String
  error : Option String
deriving DecidableEq, Repr

/-- `wait_for_indexing` from `repo-map-server.py` (lines 554-572), with the
wall-clock loop `while time.time() - start < timeout_seconds` rendered as
one poll of the status trace per elapsed second of timeout budget. -/
def wait_for_indexing_loop (trace : Nat → StatusView) :
    Nat → Bool × String
  | 0 => (false, "timeout waiting for indexing")
  | fuel + 1 =>
    if (trace 0).index_status == "completed" then (true, "indexing completed")
    else if (trace 0).index_status == "failed" then
      (false, "indexing failed: " ++ (trace 0).error.getD "unknown error")
    else wait_for_indexing_loop (fun i => trace (i + 1)) fuel

/-- `wait_for_indexing(timeout_seconds)`. -/
def wait_for_indexing (trace : Nat → StatusView) (timeoutSeconds : Nat) :
    Bool × String :=
  wait_for_indexing_loop trace timeoutSeconds

/-- The progress side-channel JSON document as the extraction child writes
it (`repo-map-progress.json`). -/
structure ProgressFileData where
  status : String
  files_parsed : Nat
  files_to_parse : Nat
  files_total : Nat
  symbols_found : Nat
deriving DecidableEq, Repr

/-- The dictionary `get_indexing_progress` returns. -/
structure ProgressInfo where
  status : String
  percentage : Nat
  files_parsed : Nat
  files_to_parse : Nat
  files_total : Nat
  symbols_found : Nat
  estimated_time_remaining : String
deriving DecidableEq, Repr

/-- `get_indexing_progress` from `repo-map-server.py` (lines 967-1010).
`none` models a missing progress file, `some none` one whose read or JSON
parse fails.  CPython computes the percentage and the 50 ms/file estimate in
floating point; the embedding uses the corresponding exact integer
arithmetic (no claim depends on the numeric values). -/
def get_indexing_progress (pf : Option (Option ProgressFileData)) :
    Option ProgressInfo :=
  match pf with
  | none => none
  | some none => none
  | some (some d) =>
    let percentage :=
      if d.files_to_parse > 0 then d.files_parsed * 100 / d.files_to_parse else 0
    let filesRemaining := d.files_to_parse - d.files_parsed
    let estimatedSeconds := filesRemaining / 20
    let timeRemaining :=
      if estimatedSeconds < 60 then toString estimatedSeconds ++ " seconds"
      else toString (estimatedSeconds / 60) ++ " minutes"
    some
      { status := d.status
        percentage := percentage
        files_parsed := d.files_parsed
        files_to_parse := d.files_to_parse
        files_total := d.files_total
        symbols_found := d.symbols_found
        estimated_time_remaining :=
          if filesRemaining > 0 then timeRemaining else "completing..." }

/-- The tools `call_tool` (lines 589-590) exempts from the indexing wait:
status/control operations and the markdown tools. -/
def waitExemptTools : List String :=
  ["repo_map_status", "reindex_repo_map", "wait_for_index",
   "md_outline", "md_get_section", "md_list_tables", "md_get_table",
   "md_list_figures"]

/-- What the guard decides for a call: dispatch the tool normally, or
return the structured `indexing_in_progress` response carrying whatever
progress snapshot the side channel yields. -/
inductive GuardOutcome where
  | proceed
  | indexingInProgress (progress : Option ProgressInfo)
deriving DecidableEq, Repr

/-- The auto-wait block of `call_tool` (`repo-map-server.py` lines 587-621):
for a non-exempt tool, when the database exists and the metadata status row
reads `"indexing"`, wait up to 15 seconds via `wait_for_indexing`; on
success fall through to the normal dispatch, otherwise return the
`indexing_in_progress` payload with the progress snapshot.  `dbStatus` is
the directly-read metadata status row (`none` when the row or table is
missing). -/
def indexing_guard (toolName : String) (dbExists : Bool)
    (dbStatus : Option String) (trace : Nat → StatusView)
    (progressFile : Option (Option ProgressFileData)) : GuardOutcome :=
  if toolName ∈ waitExemptTools then .proceed
  else if dbExists then
    match dbStatus with
    | some st =>
      if st == "indexing" then
        match wait_for_indexing trace 15 with
        | (true, _) => .proceed
        | (false, _) => .indexingInProgress (get_indexing_progress progressFile)
      else .proceed
    | none => .proceed
  else .proceed

/-! ### Symbol cache (modelled from the spec)

The extraction child that consults the per-file symbol cache, and the
indexer module attributes the server imports (`CACHE_VERSION`,
`find_files`), are repository code not present in the sources at hand —
`scripts/generate-repo-map.py` here contains only the cache-less variant of
`main`.  The cache lookup contract is therefore modelled from the spec. -/

/-- One entry of the cache snapshot: `{mtime, content_hash, symbols}`. -/
structure CacheEntry where
  mtime : Int
  content_hash : String
  symbols : List SymbolRow
deriving DecidableEq, Repr

/-- The cache snapshot mapping relative path to its entry. -/
def Cache := List (String × CacheEntry)

/-- Modelled from the spec: the Symbol Cache `lookup(file) -> (symbols,
hit)` of the extraction child (missing from the sources at hand). "A lookup
is a hit only if mtime and content hash both match the stored entry;
otherwise it is a miss." -/
def cache_lookup (cache : Cache) (path : String) (curMtime : Int)
    (curHash : String) : List SymbolRow × Bool :=
  match List.find? (fun e => e.1 == path) cache with
  | some e =>
    if e.2.mtime = curMtime ∧ e.2.content_hash = curHash then
      (e.2.symbols, true)
    else ([], false)
  | none => ([], false)

/-- Modelled from the spec: the per-file step of the extraction child (missing
from the sources at hand) — consult the Symbol Cache, and on a miss re-run
the Parser Front-End.  Returns the symbols used for the file and whether
the Parser Front-End was re-run. -/
def process_file (cache : Cache) (path : String) (curMtime : Int)
    (curHash : String) (frontEnd : String → List SymbolRow) :
    List SymbolRow × Bool :=
  let lr := cache_lookup cache path curMtime curHash
  if lr.2 then (lr.1, false) else (frontEnd path, true)

/-! ### Extraction child exit metadata (modelled from the spec) -/

/-- The Index Metadata fields the child writes on exit. -/
structure ChildExitMetadata where
  status : String
  symbol_count : Option Nat
  file_count : Option Nat
  error_message : Option String
deriving DecidableEq, Repr

/-- Modelled from the spec: the final Index Metadata write of the extraction
child (missing from the sources at hand; `scripts/generate-repo-map.py` here
is the cache-less variant whose `main` writes no metadata).  "Set Index
Metadata to completed with final counts — or, on any unrecoverable error,
set status to failed with a message, never leaving status stuck at
indexing."  `body` is the outcome of the run: final (symbol, file) counts, or the
text of the unrecoverable error. -/
def child_exit_metadata (body : Except String (Nat × Nat)) :
    ChildExitMetadata :=
  match body with
  | .ok counts =>
    { status := "completed", symbol_count := some counts.1,
      file_count := some counts.2, error_message := none }
  | .error msg =>
    { status := "failed", symbol_count := none, file_count := none,
      error_message := some msg }

/-! ### Per-language extractor error behaviour
(`scripts/generate-repo-map.py` lines 77-122) -/

/-- The outcome of `file_path.read_text with utf-8 encoding`: the decoded
source, or a `UnicodeDecodeError` on invalid UTF-8. -/
inductive ReadTextResult where
  | ok (source : String)
  | unicodeDecodeError
deriving Repr

/-- The outcome of `ast.parse(source)`.  Per the CPython documentation of
`compile` (which `ast.parse` wraps), Python 3.10/3.11 — within the declared
`requires-python = ">=3.10"` range — raise `SyntaxError` for
invalid source and `ValueError` for source containing null bytes. -/
inductive ParseOutcome where
  | tree (symbols : List SymbolRow)
  | syntaxError
  | valueErrorNullBytes
deriving Repr

/-- `ast.parse` on Python 3.10/3.11: `ValueError` on a NUL byte in the
source, otherwise the abstract parser oracle decides between a tree (whose
walk yields `symbols`) and a `SyntaxError`. -/
def ast_parse (oracle : String → Option (List SymbolRow)) (source : String) :
    ParseOutcome :=
  if source.data.contains (Char.ofNat 0) then .valueErrorNullBytes
  else
    match oracle source with
    | some syms => .tree syms
    | none => .syntaxError

/-- Result of calling `extract_symbols_from_python`: a returned symbol list,
or an exception escaping the function. -/
inductive ExtractResult where
  | ok (symbols : List SymbolRow)
  | uncaught (exn : String)
deriving Repr

/-- `extract_symbols_from_python` from `scripts/generate-repo-map.py`
(lines 77-122), with reading and parsing made explicit: the `try` block
catches exactly `(SyntaxError, UnicodeDecodeError)` and returns `[]` for
them; any other exception — in particular the `ValueError` that
`ast.parse` raises on NUL bytes under Python 3.10/3.11 — escapes. -/
def extract_symbols_from_python (oracle : String → Option (List SymbolRow))
    (read : ReadTextResult) : ExtractResult :=
  match read with
  | .unicodeDecodeError => .ok []
  | .ok source =>
    match ast_parse oracle source with
    | .syntaxError => .ok []
    | .valueErrorNullBytes =>
      .uncaught "ValueError: source code string cannot contain null bytes"
    | .tree syms => .ok syms

/-! ## Theorems -/

/-- Helper: the diagnostic message of the watchdog is never the empty string. -/
lemma watchdog_msg_ne_empty (e : Int) :
    ("Watchdog killed hung indexer after " ++ toString e ++ "s") ≠ "" := by
  intro h
  have h2 := congrArg String.length h
  rw [String.length_append, String.length_append] at h2
  have h3 : ("Watchdog killed hung indexer after " : String).length = 35 := rfl
  have h4 : ("s" : String).length = 1 := rfl
  have h5 : ("" : String).length = 0 := rfl
  omega

/-- C1: for a file whose cache entry is found, the lookup is a hit exactly
when both the stored mtime and the stored content hash equal the current
ones of the file; in particular, whenever the content hash differs (mtime held
constant or not), the lookup is a miss and the per-file step re-runs the
Parser Front-End on that file. -/
theorem c1_cache_hit_needs_mtime_and_hash (cache : Cache) (path : String)
    (curMtime : Int) (curHash : String) (frontEnd : String → List SymbolRow)
    (pe : String × CacheEntry)
    (hfind : List.find? (fun e => e.1 == path) cache = some pe) :
    ((cache_lookup cache path curMtime curHash).2 = true ↔
      pe.2.mtime = curMtime ∧ pe.2.content_hash = curHash) ∧
    (pe.2.content_hash ≠ curHash →
      cache_lookup cache path curMtime curHash = ([], false) ∧
      process_file cache path curMtime curHash frontEnd = (frontEnd path, true)) := by
  have hcl : cache_lookup cache path curMtime curHash =
      if pe.2.mtime = curMtime ∧ pe.2.content_hash = curHash then
        (pe.2.symbols, true)
      else ([], false) := by
    unfold cache_lookup
    rw [hfind]
  constructor
  · rw [hcl]
    split_ifs with hc
    · simp [hc]
    · simp [hc]
  · intro hneq
    have hcond : ¬(pe.2.mtime = curMtime ∧ pe.2.content_hash = curHash) :=
      fun hand => hneq hand.2
    rw [hcl, if_neg hcond]
    refine ⟨rfl, ?_⟩
    unfold process_file
    rw [hcl, if_neg hcond]
    rfl

/-- Witness for C1 at a concrete cache: entry for `a.py` stored with mtime 5
and hash `h1`; a lookup with the same mtime 5 but hash `h2` misses and the
front-end is re-run. -/
theorem c1_cache_hit_needs_mtime_and_hash_witness :
    cache_lookup [("a.py", { mtime := 5, content_hash := "h1", symbols := [] })]
        "a.py" 5 "h2" = ([], false) ∧
      process_file [("a.py", { mtime := 5, content_hash := "h1", symbols := [] })]
        "a.py" 5 "h2" (fun _ => []) = ([], true) :=
  (c1_cache_hit_needs_mtime_and_hash
    [("a.py", { mtime := 5, content_hash := "h1", symbols := [] })]
    "a.py" 5 "h2" (fun _ => [])
    ("a.py", { mtime := 5, content_hash := "h1", symbols := [] })
    (by rfl)).2 (by decide)

/-- C2: whatever the outcome of the run, the Index Metadata the extraction child
leaves behind on exit has status `completed` (with counts recorded) or
`failed` (with an error message) — never `indexing`. -/
theorem c2_child_exit_never_indexing (body : Except String (Nat × Nat)) :
    ((child_exit_metadata body).status = "completed" ∧
        (child_exit_metadata body).symbol_count.isSome = true ∧
        (child_exit_metadata body).file_count.isSome = true ∨
      (child_exit_metadata body).status = "failed" ∧
        (child_exit_metadata body).error_message.isSome = true) ∧
    (child_exit_metadata body).status ≠ "indexing" := by
  cases body with
  | ok counts =>
    exact ⟨Or.inl ⟨rfl, rfl, rfl⟩,
      (by decide : ("completed" : String) ≠ "indexing")⟩
  | error msg =>
    exact ⟨Or.inr ⟨rfl, rfl⟩,
      (by decide : ("failed" : String) ≠ "indexing")⟩

/-- C3: if the database exists, the metadata status is `indexing`, and the
recorded start time is more than 600 seconds before `now`, one watchdog pass
sets status to `failed` and writes a non-empty error message naming the
elapsed time — for every value of the in-memory handle, live, dead or
absent. -/
theorem c3_watchdog_fails_stale_indexing (now startTime : Int)
    (s : WatchdogState)
    (hdb : s.dbExists = true)
    (hst : s.metadata.status = some "indexing")
    (hts : s.metadata.indexStartTime = some startTime)
    (hlate : now - startTime > 600) :
    (check_indexing_watchdog now s).metadata.status = some "failed" ∧
    (check_indexing_watchdog now s).metadata.errorMessage =
      some ("Watchdog killed hung indexer after " ++
        toString (now - startTime) ++ "s") ∧
    ∀ msg, (check_indexing_watchdog now s).metadata.errorMessage = some msg →
      msg ≠ "" := by
  have hw : check_indexing_watchdog now s =
      { s with
        metadata :=
          { s.metadata with
            status := some "failed"
            errorMessage := some
              ("Watchdog killed hung indexer after " ++
                toString (now - startTime) ++ "s") }
        handleAlive := if s.handleAlive = some true then none else s.handleAlive } := by
    unfold check_indexing_watchdog
    rw [hdb, hst, hts]
    simp [hlate]
  rw [hw]
  refine ⟨rfl, rfl, ?_⟩
  intro msg hmsg
  have : msg = "Watchdog killed hung indexer after " ++
      toString (now - startTime) ++ "s" := by
    injection hmsg with h
    exact h.symm
  rw [this]
  exact watchdog_msg_ne_empty (now - startTime)

/-- Witness for C3: database present, status `indexing` started at time 0,
no in-memory handle at all, checked at time 601. -/
theorem c3_watchdog_fails_stale_indexing_witness :
    (check_indexing_watchdog 601
        { dbExists := true
          metadata := { status := some "indexing", indexStartTime := some 0,
                        errorMessage := none }
          handleAlive := none }).metadata.status = some "failed" ∧
    (check_indexing_watchdog 601
        { dbExists := true
          metadata := { status := some "indexing", indexStartTime := some 0,
                        errorMessage := none }
          handleAlive := none }).metadata.errorMessage =
      some ("Watchdog killed hung indexer after " ++
        toString ((601 : Int) - 0) ++ "s") := by
  have h := c3_watchdog_fails_stale_indexing 601 0
    { dbExists := true
      metadata := { status := some "indexing", indexStartTime := some 0,
                    errorMessage := none }
      handleAlive := none }
    rfl rfl rfl (by decide)
  exact ⟨h.1, h.2.1⟩

/-- C8: a start-index request arriving while the tracked child is still
alive is rejected immediately with `accepted = false` and the message
`indexing already in progress`, the supervisor state is untouched, and in
particular no second child is spawned. -/
theorem c8_second_start_rejected (s : SupervisorState)
    (spawnResult : Except String Proc) (p : Proc)
    (hp : s.indexingProcess = some p) (halive : p.alive = true) :
    do_index s spawnResult = (s, false, "indexing already in progress") ∧
    (do_index s spawnResult).1.spawned = s.spawned := by
  have h : do_index s spawnResult = (s, false, "indexing already in progress") := by
    unfold do_index
    rw [hp]
    simp [halive]
  exact ⟨h, by rw [h]⟩

/-- Witness for C8: a live child with pid 1 is tracked; a second request,
whose spawn would have produced pid 2, is rejected without spawning it. -/
theorem c8_second_start_rejected_witness :
    do_index { indexingProcess := some { pid := 1, alive := true },
               spawned := [1], indexError := none }
        (.ok { pid := 2, alive := true }) =
      ({ indexingProcess := some { pid := 1, alive := true },
         spawned := [1], indexError := none }, false,
        "indexing already in progress") :=
  (c8_second_start_rejected
    { indexingProcess := some { pid := 1, alive := true },
      spawned := [1], indexError := none }
    (.ok { pid := 2, alive := true }) { pid := 1, alive := true }
    rfl rfl).1

/-- C9 (code bug): on Python 3.10/3.11 — inside the declared
support range of the script — `ast.parse` raises `ValueError` for source containing a NUL
byte, and `extract_symbols_from_python` catches only `SyntaxError` and
`UnicodeDecodeError`, so the exception escapes instead of the function
returning `[]`: evaluated here on the one-NUL-byte file content. -/
theorem c9_nul_byte_exception_escapes
    (oracle : String → Option (List SymbolRow)) :
    extract_symbols_from_python oracle (.ok (String.mk ['x', Char.ofNat 0])) =
      .uncaught "ValueError: source code string cannot contain null bytes" := by
  unfold extract_symbols_from_python ast_parse
  have hc : (String.mk ['x', Char.ofNat 0]).data.contains (Char.ofNat 0) = true := by
    decide
  simp [hc]

/-- Helper: the unique-match tail of `get_symbol_content` never produces the
ambiguity report. -/
lemma read_row_content_ne_ambiguous (fs : FileSystem) (row : SymbolRow)
    (n : String) (ms : List SymbolRow) :
    read_row_content fs row ≠ .ambiguous n ms := by
  unfold read_row_content
  cases h : fs.find row.file_path with
  | none => exact fun hc => ContentResult.noConfusion hc
  | some o =>
    cases o with
    | none => exact fun hc => ContentResult.noConfusion hc
    | some lines => exact fun hc => ContentResult.noConfusion hc

/-- C6: with no kind argument, `get_symbol_content` reports not-found when
zero symbols match, and when more than one matches it reports ambiguity
carrying the complete match list (each row with its file path and line
number) instead of the content of any one of them. -/
theorem c6_ambiguity_lists_all_matches (store : List SymbolRow)
    (fs : FileSystem) (name : String) :
    (contentQueryRows store name none = [] →
      get_symbol_content store fs name none = .notFound name) ∧
    (2 ≤ (contentQueryRows store name none).length →
      get_symbol_content store fs name none =
        .ambiguous name (contentQueryRows store name none)) := by
  constructor
  · intro h
    unfold get_symbol_content
    rw [h]
  · intro h2
    unfold get_symbol_content
    cases hq : contentQueryRows store name none with
    | nil => rw [hq] at h2; simp at h2
    | cons row rest =>
      rw [hq] at h2
      have hrest : rest.length + 1 > 1 := by
        simp only [List.length_cons] at h2
        omega
      show (if rest.length + 1 > 1 ∧ (none : Option String) = none then
          ContentResult.ambiguous name (row :: rest)
        else read_row_content fs row) = ContentResult.ambiguous name (row :: rest)
      rw [if_pos ⟨hrest, rfl⟩]

/-- Witness for C6: a store holding `Foo.bar` methods from two different
files; the unqualified-kind lookup of `Foo.bar` reports ambiguity and lists
both. -/
theorem c6_ambiguity_lists_all_matches_witness :
    get_symbol_content
        [{ name := "bar", kind := "method", signature := "bar(self)",
           docstring := none, file_path := "a.py", line_number := 2,
           end_line_number := some 3, parent := some "Foo" },
         { name := "bar", kind := "method", signature := "bar(self)",
           docstring := none, file_path := "b.py", line_number := 7,
           end_line_number := some 9, parent := some "Foo" }]
        [] "Foo.bar" none =
      .ambiguous "Foo.bar"
        [{ name := "bar", kind := "method", signature := "bar(self)",
           docstring := none, file_path := "a.py", line_number := 2,
           end_line_number := some 3, parent := some "Foo" },
         { name := "bar", kind := "method", signature := "bar(self)",
           docstring := none, file_path := "b.py", line_number := 7,
           end_line_number := some 9, parent := some "Foo" }] :=
  ((c6_ambiguity_lists_all_matches
      [{ name := "bar", kind := "method", signature := "bar(self)",
         docstring := none, file_path := "a.py", line_number := 2,
         end_line_number := some 3, parent := some "Foo" },
       { name := "bar", kind := "method", signature := "bar(self)",
         docstring := none, file_path := "b.py", line_number := 7,
         end_line_number := some 9, parent := some "Foo" }]
      [] "Foo.bar").2 (by decide)).trans (by decide)

/-- C10: when a kind argument is given, several matches never yield the
ambiguity report — the result is whatever reading the first matching row
produces; the ambiguity report is produced only when kind is omitted. -/
theorem c10_kind_given_takes_first_match (store : List SymbolRow)
    (fs : FileSystem) (name : String) (k : String)
    (_h2 : 2 ≤ (contentQueryRows store name (some k)).length) :
    (∀ row rest, contentQueryRows store name (some k) = row :: rest →
      get_symbol_content store fs name (some k) = read_row_content fs row) ∧
    ∀ n ms, get_symbol_content store fs name (some k) ≠ .ambiguous n ms := by
  have hmain : ∀ row rest, contentQueryRows store name (some k) = row :: rest →
      get_symbol_content store fs name (some k) = read_row_content fs row := by
    intro row rest hq
    unfold get_symbol_content
    rw [hq]
    have hcond : ¬(rest.length + 1 > 1 ∧ (some k : Option String) = none) := by
      rintro ⟨-, hk⟩
      exact Option.noConfusion hk
    show (if rest.length + 1 > 1 ∧ (some k : Option String) = none then
        ContentResult.ambiguous name (row :: rest)
      else read_row_content fs row) = read_row_content fs row
    rw [if_neg hcond]
  refine ⟨hmain, ?_⟩
  intro n ms
  cases hq : contentQueryRows store name (some k) with
  | nil =>
    unfold get_symbol_content
    rw [hq]
    exact fun hc => ContentResult.noConfusion hc
  | cons row rest =>
    rw [hmain row rest hq]
    exact read_row_content_ne_ambiguous fs row n ms

/-- Witness for C10: two `function` rows named `f` in different files; with
`kind = "function"` the call returns the sliced source of the first row
rather than an ambiguity report. -/
theorem c10_kind_given_takes_first_match_witness :
    get_symbol_content
        [{ name := "f", kind := "function", signature := "f()",
           docstring := none, file_path := "a.py", line_number := 1,
           end_line_number := some 2, parent := none },
         { name := "f", kind := "function", signature := "f()",
           docstring := none, file_path := "b.py", line_number := 4,
           end_line_number := some 5, parent := none }]
        [("a.py", some ["def f():", "    pass", "x = 1"])]
        "f" (some "function") =
      .content
        { name := "f", kind := "function", signature := "f()",
          docstring := none, file_path := "a.py", line_number := 1,
          end_line_number := some 2, parent := none }
        1 2 "def f():\x0a    pass" :=
  ((c10_kind_given_takes_first_match
      [{ name := "f", kind := "function", signature := "f()",
         docstring := none, file_path := "a.py", line_number := 1,
         end_line_number := some 2, parent := none },
       { name := "f", kind := "function", signature := "f()",
         docstring := none, file_path := "b.py", line_number := 4,
         end_line_number := some 5, parent := none }]
      [("a.py", some ["def f():", "    pass", "x = 1"])]
      "f" "function" (by decide)).1
    { name := "f", kind := "function", signature := "f()",
      docstring := none, file_path := "a.py", line_number := 1,
      end_line_number := some 2, parent := none }
    [{ name := "f", kind := "function", signature := "f()",
       docstring := none, file_path := "b.py", line_number := 4,
       end_line_number := some 5, parent := none }]
    (by decide)).trans (by decide)

/-- C5: `is_stale` is a pure function of the observed world state returning
a `(stale?, reason)` pair; its checks run in order and short-circuit on the
first that holds — store absent; cache absent; corrupt cache or schema
version mismatch; cached file count differing from the discoverable file
count; any of the first 100 sampled files carrying an mtime newer than the
store file — and otherwise it reports `(false, "up to date")`. -/
theorem c5_is_stale_ordered_checks (v : Int) (w : StaleWorld) :
    (w.dbExists = false → is_stale v w = (true, "database does not exist")) ∧
    (w.dbExists = true → w.cacheExists = false →
      is_stale v w = (true, "cache file missing")) ∧
    (w.dbExists = true → w.cacheExists = true → w.cacheParse = none →
      is_stale v w = (true, "cache file corrupt")) ∧
    (∀ cd, w.dbExists = true → w.cacheExists = true → w.cacheParse = some cd →
      cd.version ≠ some v → is_stale v w = (true, "cache version mismatch")) ∧
    (∀ cd, w.dbExists = true → w.cacheExists = true → w.cacheParse = some cd →
      cd.version = some v → w.currentFiles.length ≠ cd.filesCount →
      is_stale v w = (true, "file count changed (" ++ toString cd.filesCount ++
        " cached, " ++ toString w.currentFiles.length ++ " found)")) ∧
    (∀ cd, w.dbExists = true → w.cacheExists = true → w.cacheParse = some cd →
      cd.version = some v → w.currentFiles.length = cd.filesCount →
      (∃ f ∈ w.currentFiles.take 100, f.mtime > w.dbMtime) →
      is_stale v w = (true, "files modified since last index")) ∧
    (∀ cd, w.dbExists = true → w.cacheExists = true → w.cacheParse = some cd →
      cd.version = some v → w.currentFiles.length = cd.filesCount →
      (∀ f ∈ w.currentFiles.take 100, f.mtime ≤ w.dbMtime) →
      is_stale v w = (false, "up to date")) := by
  refine ⟨?_, ?_, ?_, ?_, ?_, ?_, ?_⟩
  · intro h1
    simp [is_stale, h1]
  · intro h1 h2
    simp [is_stale, h1, h2]
  · intro h1 h2 h3
    simp [is_stale, h1, h2, h3]
  · intro cd h1 h2 h3 h4
    simp [is_stale, h1, h2, h3, h4]
  · intro cd h1 h2 h3 h4 h5
    simp [is_stale, h1, h2, h3, h4, h5]
  · intro cd h1 h2 h3 h4 h5 h6
    have hany : (w.currentFiles.take 100).any (fun f => f.mtime > w.dbMtime) = true := by
      obtain ⟨f, hf, hgt⟩ := h6
      exact List.any_eq_true.mpr ⟨f, hf, by simpa using hgt⟩
    simp [is_stale, h1, h2, h3, h4, h5, hany]
  · intro cd h1 h2 h3 h4 h5 h7
    have hany : (w.currentFiles.take 100).any (fun f => f.mtime > w.dbMtime) = false := by
      rw [List.any_eq_false]
      intro f hf
      simpa using h7 f hf
    simp [is_stale, h1, h2, h3, h4, h5, hany]

/-- Witness for C5 at a concrete world: store and cache present, matching
schema version 1, one cached and one discoverable file whose mtime 3 is
older than the store mtime 5 — the verdict is `(false, "up to date")`. -/
theorem c5_is_stale_ordered_checks_witness :
    is_stale 1
      { dbExists := true
        dbMtime := 5
        cacheExists := true
        cacheParse := some { version := some 1, filesCount := 1 }
        currentFiles := [{ path := "a.py", mtime := 3 }] } =
      (false, "up to date") :=
  ((c5_is_stale_ordered_checks 1
      { dbExists := true
        dbMtime := 5
        cacheExists := true
        cacheParse := some { version := some 1, filesCount := 1 }
        currentFiles := [{ path := "a.py", mtime := 3 }] }).2.2.2.2.2.2
    { version := some 1, filesCount := 1 }
    rfl rfl rfl rfl rfl (by decide))

/-- C4 counterexample: `search_symbols` does let the SQL `LIKE` pre-filter
be the final arbiter.  With the store holding only `getAx` and the pattern
`get_x`, the SQL pattern is the unchanged `get_x`, whose `_` is a
single-character `LIKE` wildcard and matches `getAx`; the fnmatch check then
rejects it, the post-filtered list is empty, and the code falls back to
returning the raw SQL rows — so the returned symbol `getAx` does not match
the glob pattern. -/
theorem c4_like_fallback_counterexample :
    search_symbols
        [{ name := "getAx", kind := "function", signature := "getAx()",
           docstring := none, file_path := "a.py", line_number := 1,
           end_line_number := some 2, parent := none }]
        "get_x" none 20 =
      [{ name := "getAx", kind := "function", signature := "getAx()",
         docstring := none, file_path := "a.py", line_number := 1,
         end_line_number := some 2, parent := none }] ∧
    globMatch "get_x" "getAx" = false := by
  decide

/-- C4 amended: whenever at least one `LIKE`-prefiltered row satisfies the
glob pattern, every row `search_symbols` returns satisfies it — on such
inputs the fnmatch post-filter, not the `LIKE` pre-filter, decides the
result; when no prefiltered row satisfies the glob, the raw `LIKE` rows are
returned unfiltered as a fallback. -/
theorem c4_glob_decides_when_any_match (store : List SymbolRow)
    (pattern : String) (kind : Option String) (lim : Nat)
    (h : ∃ r ∈ sqlQueryRows store pattern kind lim,
      globMatch pattern r.name = true) :
    ∀ r ∈ search_symbols store pattern kind lim,
      globMatch pattern r.name = true := by
  obtain ⟨r0, hr0, hg0⟩ := h
  intro r hr
  have hmem : r0 ∈ (sqlQueryRows store pattern kind lim).filter
      (fun x => globMatch pattern x.name) :=
    List.mem_filter.mpr ⟨hr0, hg0⟩
  have hempty : ((sqlQueryRows store pattern kind lim).filter
      (fun x => globMatch pattern x.name)).isEmpty = false := by
    cases hfil : (sqlQueryRows store pattern kind lim).filter
        (fun x => globMatch pattern x.name) with
    | nil => rw [hfil] at hmem; exact absurd hmem (List.not_mem_nil r0)
    | cons a as => rfl
  rw [show search_symbols store pattern kind lim =
      List.take lim
        (if ((sqlQueryRows store pattern kind lim).filter
            (fun x => globMatch pattern x.name)).isEmpty = true
          then sqlQueryRows store pattern kind lim
          else (sqlQueryRows store pattern kind lim).filter
            (fun x => globMatch pattern x.name)) from rfl,
    hempty, if_neg Bool.false_ne_true] at hr
  have hr2 : r ∈ (sqlQueryRows store pattern kind lim).filter
      (fun x => globMatch pattern x.name) :=
    List.mem_of_mem_take hr
  exact (List.mem_filter.mp hr2).2

/-- Witness for C4 (amended) at the example given by the spec itself: a store holding
`get_user`, `get_order`, `set_user` queried with `get_*` — at least one
prefiltered row matches the glob, so every returned row does; instantiated
at the returned row `get_order`. -/
theorem c4_glob_decides_when_any_match_witness :
    globMatch "get_*"
      ({ name := "get_order", kind := "function", signature := "get_order()",
         docstring := none, file_path := "a.py", line_number := 5,
         end_line_number := some 7, parent := none } : SymbolRow).name = true :=
  c4_glob_decides_when_any_match
    [{ name := "get_user", kind := "function", signature := "get_user()",
       docstring := none, file_path := "a.py", line_number := 1,
       end_line_number := some 3, parent := none },
     { name := "get_order", kind := "function", signature := "get_order()",
       docstring := none, file_path := "a.py", line_number := 5,
       end_line_number := some 7, parent := none },
     { name := "set_user", kind := "function", signature := "set_user()",
       docstring := none, file_path := "a.py", line_number := 9,
       end_line_number := some 11, parent := none }]
    "get_*" none 20
    ⟨{ name := "get_order", kind := "function", signature := "get_order()",
       docstring := none, file_path := "a.py", line_number := 5,
       end_line_number := some 7, parent := none }, by decide, by decide⟩
    { name := "get_order", kind := "function", signature := "get_order()",
      docstring := none, file_path := "a.py", line_number := 5,
      end_line_number := some 7, parent := none }
    (by decide)

/-- Helper: if no poll within the budget ever observes `completed`, the
wait reports failure (either the failed status or the timeout), never
success. -/
lemma wait_false_of_never_completed (fuel : Nat) (trace : Nat → StatusView)
    (h : ∀ i < fuel, (trace i).index_status ≠ "completed") :
    (wait_for_indexing_loop trace fuel).1 = false := by
  induction fuel generalizing trace with
  | zero => rfl
  | succ n ih =>
    have h0 : ¬ ((trace 0).index_status == "completed") = true := by
      simp only [beq_iff_eq]
      exact h 0 (Nat.succ_pos n)
    unfold wait_for_indexing_loop
    rw [if_neg h0]
    by_cases hf : ((trace 0).index_status == "failed") = true
    · rw [if_pos hf]
    · rw [if_neg hf]
      exact ih (fun i => trace (i + 1))
        (fun i hi => h (i + 1) (Nat.succ_lt_succ hi))

/-- Helper: if some poll within the budget observes `completed` and nothing
before it observed `completed` or `failed`, the wait succeeds. -/
lemma wait_true_of_completed_within (i : Nat) (fuel : Nat)
    (trace : Nat → StatusView) (hi : i < fuel)
    (hc : (trace i).index_status = "completed")
    (hb : ∀ j < i, (trace j).index_status ≠ "completed" ∧
      (trace j).index_status ≠ "failed") :
    wait_for_indexing_loop trace fuel = (true, "indexing completed") := by
  induction i generalizing fuel trace with
  | zero =>
    cases fuel with
    | zero => omega
    | succ n =>
      unfold wait_for_indexing_loop
      rw [if_pos (by simp only [beq_iff_eq]; exact hc)]
  | succ k ih =>
    cases fuel with
    | zero => omega
    | succ n =>
      have h0 := hb 0 (Nat.succ_pos k)
      unfold wait_for_indexing_loop
      rw [if_neg (by simp only [beq_iff_eq]; exact h0.1),
        if_neg (by simp only [beq_iff_eq]; exact h0.2)]
      exact ih n (fun j => trace (j + 1)) (Nat.lt_of_succ_lt_succ hi) hc
        (fun j hj => hb (j + 1) (Nat.succ_lt_succ hj))

/-- C7: each of the four read tools is guarded: arriving while the metadata
status reads `indexing`, the call either proceeds or returns the structured
progress response — nothing else; polling is bounded by the 15-second
budget; if indexing completes within the budget the call proceeds normally,
and if it never completes within the budget the call returns the progress
snapshot read from the side channel instead of blocking. -/
theorem c7_read_guard_bounded_wait (tool : String)
    (htool : tool ∈ ["search_symbols", "get_file_symbols",
      "get_symbol_content", "list_files"])
    (trace : Nat → StatusView)
    (progressFile : Option (Option ProgressFileData)) :
    (indexing_guard tool true (some "indexing") trace progressFile =
        .proceed ∨
      indexing_guard tool true (some "indexing") trace progressFile =
        .indexingInProgress (get_indexing_progress progressFile)) ∧
    ((∃ i, i < 15 ∧ (trace i).index_status = "completed" ∧
        ∀ j < i, (trace j).index_status ≠ "completed" ∧
          (trace j).index_status ≠ "failed") →
      indexing_guard tool true (some "indexing") trace progressFile =
        .proceed) ∧
    ((∀ i < 15, (trace i).index_status ≠ "completed") →
      indexing_guard tool true (some "indexing") trace progressFile =
        .indexingInProgress (get_indexing_progress progressFile)) := by
  have hexempt : tool ∉ waitExemptTools := by
    fin_cases htool <;> decide
  have hguard : indexing_guard tool true (some "indexing") trace progressFile =
      (match wait_for_indexing trace 15 with
       | (true, _) => GuardOutcome.proceed
       | (false, _) =>
         GuardOutcome.indexingInProgress (get_indexing_progress progressFile)) := by
    unfold indexing_guard
    rw [if_neg hexempt]
    rfl
  refine ⟨?_, ?_, ?_⟩
  · rcases hw : wait_for_indexing trace 15 with ⟨b, msg⟩
    cases b with
    | true => exact Or.inl (by rw [hguard, hw])
    | false => exact Or.inr (by rw [hguard, hw])
  · rintro ⟨i, hi, hc, hb⟩
    have hwait := wait_true_of_completed_within i 15 trace hi hc hb
    rw [hguard, show wait_for_indexing trace 15 =
      wait_for_indexing_loop trace 15 from rfl, hwait]
  · intro hnever
    have hfalse := wait_false_of_never_completed 15 trace hnever
    rcases hw : wait_for_indexing trace 15 with ⟨b, msg⟩
    rw [show wait_for_indexing trace 15 =
      wait_for_indexing_loop trace 15 from rfl] at hw
    rw [hw] at hfalse
    cases b with
    | true => simp at hfalse
    | false =>
      rw [hguard, show wait_for_indexing trace 15 =
        wait_for_indexing_loop trace 15 from rfl, hw]

/-- The status trace used by the C7 witness: the store reads `indexing` for
two polls and `completed` from the third on. -/
def c7TraceExample : Nat → StatusView := fun i =>
  if i < 2 then { index_status := "indexing", error := none }
  else { index_status := "completed", error := none }

/-- The progress side-channel contents used by the C7 witness. -/
def c7ProgressExample : ProgressFileData :=
  { status := "indexing"
    files_parsed := 5
    files_to_parse := 10
    files_total := 12
    symbols_found := 42 }

/-- Witness for C7: a `search_symbols` call arriving while status is
`indexing`, with indexing completing at the third poll, proceeds normally. -/
theorem c7_read_guard_bounded_wait_witness :
    indexing_guard "search_symbols" true (some "indexing") c7TraceExample
      (some (some c7ProgressExample)) = .proceed :=
  (c7_read_guard_bounded_wait "search_symbols" (by decide) c7TraceExample
    (some (some c7ProgressExample))).2.1
    ⟨2, by omega, by decide, by decide⟩

end RepoMap
